import Mathlib

/-!
Verification of the djman repository's audio-analysis scripts.

The embedding follows `src/scripts/audio_analyzer.py` (Camelot key mapper,
loudness formula, result formatter, CLI entry point) and
`src/python/analysis.py` (the minimal CLI variant).  Python floats are
modelled as rationals, Python dicts built by literal syntax as association
lists in insertion order, and the external Essentia / mixxx analyzer calls
as opaque function parameters.
-/

namespace DJMan

/-- The `camelot_map` dict literal of `get_key_camelot`
(`src/scripts/audio_analyzer.py`), in source order. -/
def camelotMap : List (String × String) :=
  [("C", "8B"), ("C#", "3B"), ("Db", "3B"), ("D", "10B"),
   ("D#", "5B"), ("Eb", "5B"), ("E", "12B"), ("F", "7B"),
   ("F#", "2B"), ("Gb", "2B"), ("G", "9B"), ("G#", "4B"),
   ("Ab", "4B"), ("A", "11B"), ("A#", "6B"), ("Bb", "6B"), ("B", "1B")]

/-- Python `camelot_map.get(key)`: first (only) binding of `key`, else `None`. -/
def camelotMapGet (key : String) : Option String :=
  (camelotMap.find? (fun p => p.1 == key)).map Prod.snd

/-- Function `get_key_camelot` of `src/scripts/audio_analyzer.py`:
`base = camelot_map.get(key); if not base: return None;
number = base[:-1]; letter is "A" when scale == "minor" and else "B";
return f"{number}{letter}"`. (Every value in the map is a nonempty string,
so Python's `not base` is true exactly when the key is absent.) -/
def get_key_camelot (key scale : String) : Option String :=
  match camelotMapGet key with
  | none => none
  | some base =>
      let number := base.dropRight 1
      let letter := if scale == "minor" then "A" else "B"
      some (number ++ letter)

/-- The loudness formula `lufs = -18.0 - gain` inlined in `analyze_audio`
(`src/scripts/audio_analyzer.py`); the spec calls it `approximate_lufs`. -/
def approximate_lufs (replay_gain : ℚ) : ℚ := -18.0 - replay_gain

/-- A JSON-serializable Python value as used by these scripts. -/
inductive JValue where
  | null : JValue
  | bool : Bool → JValue
  | num : ℚ → JValue
  | str : String → JValue
deriving DecidableEq

/-- A Python dict built by literal syntax: an association list in
insertion order. -/
abbrev JRecord := List (String × JValue)

/-- Python `record[k]` as an option (every access in the scripts is to a
key that is present). -/
def jlookup (r : JRecord) (k : String) : Option JValue :=
  (r.find? (fun p => p.1 == k)).map Prod.snd

/-- Python truthiness of a JSON-like value, as tested by the exit-code
branch of `main`. -/
def jtruthy : JValue → Bool
  | .null => false
  | .bool b => b
  | .num q => decide (q ≠ 0)
  | .str s => s != ""

/-- The tuple the external Essentia analyzer produces for one file, as
consumed by `analyze_audio` (`src/scripts/audio_analyzer.py`): the spec's
Analyzer Adapter output. -/
structure AdapterOutput where
  bpm : ℚ
  key : String
  scale : String
  key_strength : ℚ
  replay_gain : ℚ
  beats_confidence : ℚ
deriving DecidableEq

/-- The success-path dict of `analyze_audio`, fields in source order;
`key_raw = f"{key} {scale}"`, `key_camelot = get_key_camelot(key, scale)`
(JSON `null` when absent), `lufs = -18.0 - gain`. -/
def formatSuccess (t : AdapterOutput) : JRecord :=
  [("success", .bool true),
   ("bpm", .num t.bpm),
   ("key_raw", .str (t.key ++ " " ++ t.scale)),
   ("key_camelot",
      match get_key_camelot t.key t.scale with
      | none => .null
      | some c => .str c),
   ("key", .str t.key),
   ("scale", .str t.scale),
   ("key_strength", .num t.key_strength),
   ("loudness", .num (approximate_lufs t.replay_gain)),
   ("beats_confidence", .num t.beats_confidence)]

/-- Function `analyze_audio` with the external-analyzer call abstracted:
the `try` body either yields an `AdapterOutput` or raises with a message,
and the except branch returns the dict of success False and error str(e). -/
def analyze_audio (adapter : Except String AdapterOutput) : JRecord :=
  match adapter with
  | .error e => [("success", .bool false), ("error", .str e)]
  | .ok t => formatSuccess t

/-- Entry point `main` of `src/scripts/audio_analyzer.py`; `args` is the
argument list after the program name.
Returns the printed record and the process exit code.  With no argument it
prints a failure record with error "No file path provided" and exits 1;
otherwise it analyzes the first argument and exits 0 iff the result dict
has a truthy "success" entry. -/
def main (adapter : String → Except String AdapterOutput)
    (args : List String) : JRecord × Nat :=
  match args with
  | [] => ([("success", .bool false), ("error", .str "No file path provided")], 1)
  | path :: _ =>
      let result := analyze_audio (adapter path)
      (result, if (jlookup result "success").elim false jtruthy then 0 else 1)

/-- The record returned by the external `mixxx_analyzer.analyze` call in
`src/python/analysis.py` (fields as read by that script). -/
structure MixxxResult where
  bpm : ℚ
  key : String
  camelot : String
  lufs : ℚ
  replay_gain : ℚ
  intro_secs : ℚ
  outro_secs : ℚ
deriving DecidableEq

/-- The dict printed by `analyze(path)` in `src/python/analysis.py`
(the minimal CLI variant), fields in source order. -/
def analyze (r : MixxxResult) : JRecord :=
  [("bpm", .num r.bpm),
   ("key_raw", .str r.key),
   ("key_camelot", .str r.camelot),
   ("lufs", .num r.lufs),
   ("replay_gain", .num r.replay_gain),
   ("intro_secs", .num r.intro_secs),
   ("outro_secs", .num r.outro_secs)]

/-- The `__main__` block of `src/python/analysis.py`: with anything other
than exactly one argument it prints a usage line and exits 1; otherwise it
prints the analysis record and exits 0. -/
def analysisMain (analyzer : String → MixxxResult)
    (args : List String) : (JRecord ⊕ String) × Nat :=
  match args with
  | [path] => (.inl (analyze (analyzer path)), 0)
  | _ => (.inr "usage: analysis.py <audiofile>", 1)

/-- The 17 canonical key spellings of the spec's data model (§3). -/
def canonicalKeys : List String :=
  ["C", "C#", "Db", "D", "D#", "Eb", "E", "F", "F#", "Gb",
   "G", "G#", "Ab", "A", "A#", "Bb", "B"]

/-- The five enharmonic spelling pairs named in the spec. -/
def enharmonicPairs : List (String × String) :=
  [("C#", "Db"), ("D#", "Eb"), ("F#", "Gb"), ("G#", "Ab"), ("A#", "Bb")]

/-- The number part of a returned Camelot code (everything but the final
letter). -/
def camelotNumberPart (key scale : String) : Option String :=
  (get_key_camelot key scale).map (fun c => c.dropRight 1)

/-- The letter part of a returned Camelot code (its final character). -/
def camelotLetterPart (key scale : String) : Option String :=
  (get_key_camelot key scale).map (fun c => c.takeRight 1)

/-- The §4.1 lookup table of the spec, written out as all 34
(key, scale, code) rows from the spec's words. -/
def specCamelotTable : List (String × String × String) :=
  [("C", "major", "8B"), ("C", "minor", "8A"),
   ("C#", "major", "3B"), ("C#", "minor", "3A"),
   ("Db", "major", "3B"), ("Db", "minor", "3A"),
   ("D", "major", "10B"), ("D", "minor", "10A"),
   ("D#", "major", "5B"), ("D#", "minor", "5A"),
   ("Eb", "major", "5B"), ("Eb", "minor", "5A"),
   ("E", "major", "12B"), ("E", "minor", "12A"),
   ("F", "major", "7B"), ("F", "minor", "7A"),
   ("F#", "major", "2B"), ("F#", "minor", "2A"),
   ("Gb", "major", "2B"), ("Gb", "minor", "2A"),
   ("G", "major", "9B"), ("G", "minor", "9A"),
   ("G#", "major", "4B"), ("G#", "minor", "4A"),
   ("Ab", "major", "4B"), ("Ab", "minor", "4A"),
   ("A", "major", "11B"), ("A", "minor", "11A"),
   ("A#", "major", "6B"), ("A#", "minor", "6A"),
   ("Bb", "major", "6B"), ("Bb", "minor", "6A"),
   ("B", "major", "1B"), ("B", "minor", "1A")]

/-- The Analyzer Adapter stub input of spec §8. -/
def stubInput : AdapterOutput :=
  ⟨128, "C#", "minor", 9/10, 0, 19/20⟩

/-- The record the claim says the stub input yields exactly, written from
the spec's words (§8), as a dict. -/
def specStubRecord : JRecord :=
  [("success", .bool true), ("bpm", .num 128), ("key_raw", .str "C# minor"),
   ("key_camelot", .str "3A"), ("loudness", .num (-18)),
   ("key_strength", .num (9/10)), ("beats_confidence", .num (19/20))]

/-- A concrete record from the external mixxx analyzer, for evaluating the
minimal CLI. -/
def mixxxStub : MixxxResult := ⟨128, "C# minor", "3A", -18, 0, 5, 10⟩

theorem canonicalKeys_eq_domain : canonicalKeys = camelotMap.map Prod.fst := by
  decide

theorem camelotMapGet_eq_none (key : String) (h : key ∉ canonicalKeys) :
    camelotMapGet key = none := by
  unfold camelotMapGet
  rw [List.find?_eq_none.2]
  · rfl
  · intro p hp hpk
    have hk : p.1 = key := eq_of_beq hpk
    exact h (canonicalKeys_eq_domain ▸ (hk ▸ List.mem_map_of_mem Prod.fst hp))

theorem camelotMapGet_mem_values (key b : String)
    (h : camelotMapGet key = some b) : b ∈ camelotMap.map Prod.snd := by
  unfold camelotMapGet at h
  obtain ⟨p, hp, hpb⟩ := Option.map_eq_some'.1 h
  exact hpb ▸ List.mem_map_of_mem Prod.snd (List.mem_of_find?_eq_some hp)

theorem camelot_scale_cases (k s : String) :
    get_key_camelot k s =
      if s == "minor" then get_key_camelot k "minor"
      else get_key_camelot k "major" := by
  unfold get_key_camelot
  cases camelotMapGet k with
  | none => cases h : (s == "minor") <;> simp [h]
  | some base => cases h : (s == "minor") <;> simp [h]

theorem get_key_camelot_of_get (key scale base : String)
    (hg : camelotMapGet key = some base) :
    get_key_camelot key scale =
      some (base.dropRight 1 ++ if scale == "minor" then "A" else "B") := by
  unfold get_key_camelot
  rw [hg]

theorem mem_values_of_get (key base : String)
    (hg : camelotMapGet key = some base) :
    base ∈ ["8B", "3B", "3B", "10B", "5B", "5B", "12B", "7B", "2B", "2B",
            "9B", "4B", "4B", "11B", "6B", "6B", "1B"] := by
  have h := camelotMapGet_mem_values key base hg
  simpa [camelotMap] using h

theorem numberPart_scale (k s : String) :
    camelotNumberPart k s =
      if s == "minor" then camelotNumberPart k "minor"
      else camelotNumberPart k "major" := by
  unfold camelotNumberPart
  rw [camelot_scale_cases k s]
  cases h : (s == "minor") <;> simp [h]

theorem numberPart_minor_eq_major (k : String) :
    camelotNumberPart k "minor" = camelotNumberPart k "major" := by
  unfold camelotNumberPart
  cases hg : camelotMapGet k with
  | none => simp [get_key_camelot, hg]
  | some base =>
      rw [get_key_camelot_of_get k "minor" base hg,
        get_key_camelot_of_get k "major" base hg]
      have hb := mem_values_of_get k base hg
      fin_cases hb <;> decide

theorem isSome_of_canonical (key scale : String) (hk : key ∈ canonicalKeys) :
    (get_key_camelot key scale).isSome := by
  rw [camelot_scale_cases]
  cases hs : (scale == "minor") <;> simp only [if_true, if_false, Bool.false_eq_true,
    if_neg, ite_false, ite_true] <;> fin_cases hk <;> decide

theorem letterPart_of_recognized (key scale : String)
    (h : (get_key_camelot key scale).isSome) :
    camelotLetterPart key scale =
      some (if scale == "minor" then "A" else "B") := by
  unfold camelotLetterPart
  cases hg : camelotMapGet key with
  | none =>
      rw [show get_key_camelot key scale = none from by
        unfold get_key_camelot; rw [hg]] at h
      simp at h
  | some base =>
      rw [get_key_camelot_of_get key scale base hg]
      have hb := mem_values_of_get key base hg
      cases hs : (scale == "minor") <;> simp only [hs, ite_true, ite_false,
        Option.map_some'] <;> fin_cases hb <;> decide

/-- C1: the claim says the letter defaults to "A" for any scale other than
the literal "major"; the code defaults to "B" for any scale other than the
literal "minor": `get_key_camelot("C", "dorian")` returns "8B", not "8A". -/
theorem C1_counter_scale_default :
    get_key_camelot "C" "dorian" = some "8B" ∧
      get_key_camelot "C" "dorian" ≠ some "8A" := by
  decide

/-- C1 (amended): for every recognized key and every scale string, the
returned code ends in "A" exactly when the scale is the literal "minor";
any other scale value, "major" included, yields letter "B". -/
theorem C1_letter_b_unless_minor (key scale : String)
    (h : (get_key_camelot key scale).isSome) :
    ∃ n, get_key_camelot key scale =
      some (n ++ if scale == "minor" then "A" else "B") := by
  cases hg : camelotMapGet key with
  | none =>
      rw [show get_key_camelot key scale = none from by
        unfold get_key_camelot; rw [hg]] at h
      simp at h
  | some base =>
      exact ⟨base.dropRight 1, get_key_camelot_of_get key scale base hg⟩

theorem C1_letter_b_unless_minor_witness :
    ∃ n, get_key_camelot "C" "dorian" =
      some (n ++ if "dorian" == "minor" then "A" else "B") :=
  C1_letter_b_unless_minor "C" "dorian" (by decide)

/-- C2: on each of the 34 canonical (key, scale) pairs, `get_key_camelot`
returns exactly the literal of the spec's §4.1 lookup table. -/
theorem C2_camelot_spec_table :
    ∀ row ∈ specCamelotTable,
      get_key_camelot row.1 row.2.1 = some row.2.2 := by
  decide

theorem C2_camelot_spec_table_witness :
    ("C", "major", "8B") ∈ specCamelotTable ∧
      get_key_camelot "C" "major" = some "8B" :=
  ⟨by decide, C2_camelot_spec_table ("C", "major", "8B") (by decide)⟩

/-- C3: for recognized keys the number part of the Camelot code depends on
the key alone (equal across all scale strings, and across enharmonic
spellings), while the letter part depends on the scale alone. -/
theorem C3_number_by_key_letter_by_scale :
    (∀ key ∈ canonicalKeys, ∀ s1 s2 : String,
        camelotNumberPart key s1 = camelotNumberPart key s2) ∧
    (∀ p ∈ enharmonicPairs, ∀ scale : String,
        get_key_camelot p.1 scale = get_key_camelot p.2 scale) ∧
    (∀ k1 ∈ canonicalKeys, ∀ k2 ∈ canonicalKeys, ∀ scale : String,
        camelotLetterPart k1 scale = camelotLetterPart k2 scale) := by
  refine ⟨?_, ?_, ?_⟩
  · intro key _ s1 s2
    rw [numberPart_scale key s1, numberPart_scale key s2]
    cases h1 : (s1 == "minor") <;> cases h2 : (s2 == "minor") <;>
      simp [numberPart_minor_eq_major]
  · intro p hp scale
    rw [camelot_scale_cases p.1 scale, camelot_scale_cases p.2 scale]
    by_cases hs : (scale == "minor") = true <;> simp [hs] <;>
      fin_cases hp <;> decide
  · intro k1 hk1 k2 hk2 scale
    rw [letterPart_of_recognized k1 scale (isSome_of_canonical k1 scale hk1),
      letterPart_of_recognized k2 scale (isSome_of_canonical k2 scale hk2)]

theorem C3_number_by_key_letter_by_scale_witness :
    camelotNumberPart "C#" "major" = camelotNumberPart "C#" "phrygian" ∧
    get_key_camelot "C#" "lydian" = get_key_camelot "Db" "lydian" ∧
    camelotLetterPart "C#" "minor" = camelotLetterPart "G" "minor" :=
  ⟨C3_number_by_key_letter_by_scale.1 "C#" (by decide) "major" "phrygian",
   C3_number_by_key_letter_by_scale.2.1 ("C#", "Db") (by decide) "lydian",
   C3_number_by_key_letter_by_scale.2.2 "C#" (by decide) "G" (by decide) "minor"⟩

/-- C4: the loudness approximation is exactly `-18.0 - replay_gain` on
every input (total, no validation), with the three spec values checked. -/
theorem C4_lufs_formula :
    (∀ rg : ℚ, approximate_lufs rg = -18.0 - rg) ∧
    approximate_lufs 0 = -18 ∧ approximate_lufs 3 = -21 ∧
    approximate_lufs (-6) = -12 := by
  refine ⟨fun rg => rfl, ?_, ?_, ?_⟩ <;> norm_num [approximate_lufs]

theorem approximate_lufs_zero : approximate_lufs 0 = -18 := by
  norm_num [approximate_lufs]

/-- C5: the claim's "yields exactly" record omits the `key` and `scale`
fields that the code's success record always carries: on the §8 stub the
code's record has a `key` field (value "C#") which the claimed record
lacks, so the two dicts differ. -/
theorem C5_counter_extra_fields :
    formatSuccess stubInput ≠ specStubRecord ∧
    jlookup (formatSuccess stubInput) "key" = some (.str "C#") ∧
    jlookup specStubRecord "key" = none := by
  refine ⟨?_, rfl, rfl⟩
  intro h
  have hlen := congrArg List.length h
  simp [formatSuccess, specStubRecord] at hlen

/-- C5 (amended): the formatter builds the success record with
`key_raw = key ++ " " ++ scale`, `key_camelot = camelot(key, scale)`,
`loudness = approximate_lufs(replay_gain)` and `bpm`, `key_strength`,
`beats_confidence` passed through; the §8 stub yields the claimed record
extended with the `key` and `scale` fields of the §6 schema. -/
theorem C5_formatter_builds_record :
    (∀ t : AdapterOutput,
       jlookup (formatSuccess t) "success" = some (.bool true) ∧
       jlookup (formatSuccess t) "bpm" = some (.num t.bpm) ∧
       jlookup (formatSuccess t) "key_raw" =
         some (.str (t.key ++ " " ++ t.scale)) ∧
       jlookup (formatSuccess t) "loudness" =
         some (.num (approximate_lufs t.replay_gain)) ∧
       jlookup (formatSuccess t) "key_strength" = some (.num t.key_strength) ∧
       jlookup (formatSuccess t) "beats_confidence" =
         some (.num t.beats_confidence) ∧
       (∀ c, get_key_camelot t.key t.scale = some c →
          jlookup (formatSuccess t) "key_camelot" = some (.str c))) ∧
    analyze_audio (.ok stubInput) =
      [("success", .bool true), ("bpm", .num 128), ("key_raw", .str "C# minor"),
       ("key_camelot", .str "3A"), ("key", .str "C#"), ("scale", .str "minor"),
       ("key_strength", .num (9/10)), ("loudness", .num (-18)),
       ("beats_confidence", .num (19/20))] := by
  constructor
  · intro t
    refine ⟨rfl, rfl, rfl, rfl, rfl, rfl, ?_⟩
    intro c hc
    simp [jlookup, formatSuccess, hc]
  · have h : analyze_audio (.ok stubInput) =
        [("success", .bool true), ("bpm", .num 128),
         ("key_raw", .str "C# minor"), ("key_camelot", .str "3A"),
         ("key", .str "C#"), ("scale", .str "minor"),
         ("key_strength", .num (9/10)),
         ("loudness", .num (approximate_lufs 0)),
         ("beats_confidence", .num (19/20))] := rfl
    rw [h, approximate_lufs_zero]

theorem C5_formatter_builds_record_witness :
    jlookup (formatSuccess stubInput) "key_camelot" = some (.str "3A") :=
  (C5_formatter_builds_record.1 stubInput).2.2.2.2.2.2 "3A" (by decide)

/-- C6: unrecognized keys ("X", "H", and any string outside the canonical
17) make the mapper return `None` rather than raise, and the formatter then
emits `key_camelot = null` while `success` stays true. -/
theorem C6_unrecognized_key :
    (∀ scale, get_key_camelot "X" scale = none) ∧
    (∀ scale, get_key_camelot "H" scale = none) ∧
    (∀ key scale, key ∉ canonicalKeys → get_key_camelot key scale = none) ∧
    (∀ t : AdapterOutput, get_key_camelot t.key t.scale = none →
       jlookup (formatSuccess t) "key_camelot" = some .null ∧
       jlookup (formatSuccess t) "success" = some (.bool true)) := by
  refine ⟨?_, ?_, ?_, ?_⟩
  · intro scale
    unfold get_key_camelot
    rw [camelotMapGet_eq_none "X" (by decide)]
  · intro scale
    unfold get_key_camelot
    rw [camelotMapGet_eq_none "H" (by decide)]
  · intro key scale h
    unfold get_key_camelot
    rw [camelotMapGet_eq_none key h]
  · intro t h
    exact ⟨by simp [jlookup, formatSuccess, h], rfl⟩

theorem C6_unrecognized_key_witness :
    get_key_camelot "Q" "major" = none ∧
    (jlookup (formatSuccess ⟨128, "X", "major", 9/10, 0, 19/20⟩)
        "key_camelot" = some .null ∧
     jlookup (formatSuccess ⟨128, "X", "major", 9/10, 0, 19/20⟩)
        "success" = some (.bool true)) :=
  ⟨C6_unrecognized_key.2.2.1 "Q" "major" (by decide),
   C6_unrecognized_key.2.2.2 ⟨128, "X", "major", 9/10, 0, 19/20⟩ (by decide)⟩

/-- C7: any analyzer failure yields exactly the two-field record
`{success: false, error: message}`, and a success record always carries
all nine fields of the schema — never a partial record. -/
theorem C7_failure_record :
    (∀ e, analyze_audio (.error e) =
        [("success", .bool false), ("error", .str e)]) ∧
    (∀ t : AdapterOutput, (analyze_audio (.ok t)).map Prod.fst =
        ["success", "bpm", "key_raw", "key_camelot", "key", "scale",
         "key_strength", "loudness", "beats_confidence"]) :=
  ⟨fun _ => rfl, fun _ => rfl⟩

/-- C8: with no argument the CLI prints a failure record (audio_analyzer)
or a usage line (analysis.py) and exits 1 without analyzing; on analyzer
failure it prints the failure record and exits 1; on success it prints the
result record and exits 0; analysis.py also rejects extra arguments. -/
theorem C8_cli_exit_codes :
    (∀ adapter, main adapter [] =
        ([("success", .bool false),
          ("error", .str "No file path provided")], 1)) ∧
    (∀ adapter path rest e, adapter path = .error e →
        main adapter (path :: rest) =
          ([("success", .bool false), ("error", .str e)], 1)) ∧
    (∀ adapter path rest t, adapter path = .ok t →
        main adapter (path :: rest) = (formatSuccess t, 0)) ∧
    (∀ analyzer path, analysisMain analyzer [path] =
        (.inl (analyze (analyzer path)), 0)) ∧
    (∀ analyzer, analysisMain analyzer [] =
        (.inr "usage: analysis.py <audiofile>", 1)) ∧
    (∀ analyzer path extra rest,
        analysisMain analyzer (path :: extra :: rest) =
          (.inr "usage: analysis.py <audiofile>", 1)) := by
  refine ⟨fun _ => rfl, ?_, ?_, fun _ _ => rfl, fun _ => rfl, fun _ _ _ _ => rfl⟩
  · intro adapter path rest e h
    simp only [main, h]
    rfl
  · intro adapter path rest t h
    simp only [main, h]
    rfl

theorem C8_cli_exit_codes_witness :
    main (fun _ => .error "file not found") ["x.mp3"] =
      ([("success", .bool false), ("error", .str "file not found")], 1) ∧
    main (fun _ => .ok stubInput) ["x.mp3"] = (formatSuccess stubInput, 0) :=
  ⟨C8_cli_exit_codes.2.1 _ "x.mp3" [] "file not found" rfl,
   C8_cli_exit_codes.2.2.1 _ "x.mp3" [] stubInput rfl⟩

/-- C9: the claim names the minimal variant's loudness field "loudness",
but `src/python/analysis.py` publishes it under the key "lufs": the output
record has no "loudness" field at all. -/
theorem C9_counter_field_name :
    (analyze mixxxStub).map Prod.fst =
      ["bpm", "key_raw", "key_camelot", "lufs", "replay_gain",
       "intro_secs", "outro_secs"] ∧
    jlookup (analyze mixxxStub) "loudness" = none ∧
    jlookup (analyze mixxxStub) "lufs" = some (.num (-18)) :=
  ⟨rfl, rfl, rfl⟩

/-- C9 (amended): the minimal CLI record's fields are exactly bpm, key_raw,
key_camelot, lufs, replay_gain, intro_secs, outro_secs — the §6 success
schema with key, scale, key_strength, beats_confidence, success omitted and
intro_secs, outro_secs, replay_gain added, the loudness value published
under the name "lufs" — each value projected from the analyzer record. -/
theorem C9_minimal_cli_fields (r : MixxxResult) :
    (analyze r).map Prod.fst =
      ["bpm", "key_raw", "key_camelot", "lufs", "replay_gain",
       "intro_secs", "outro_secs"] ∧
    jlookup (analyze r) "bpm" = some (.num r.bpm) ∧
    jlookup (analyze r) "key_raw" = some (.str r.key) ∧
    jlookup (analyze r) "key_camelot" = some (.str r.camelot) ∧
    jlookup (analyze r) "lufs" = some (.num r.lufs) ∧
    jlookup (analyze r) "replay_gain" = some (.num r.replay_gain) ∧
    jlookup (analyze r) "intro_secs" = some (.num r.intro_secs) ∧
    jlookup (analyze r) "outro_secs" = some (.num r.outro_secs) ∧
    jlookup (analyze r) "loudness" = none ∧
    jlookup (analyze r) "success" = none :=
  ⟨rfl, rfl, rfl, rfl, rfl, rfl, rfl, rfl, rfl, rfl⟩

/-- C10: the Camelot mapper and the loudness formula are deterministic:
identical inputs always produce identical outputs. -/
theorem C10_deterministic :
    (∀ k1 k2 s1 s2 : String, k1 = k2 → s1 = s2 →
        get_key_camelot k1 s1 = get_key_camelot k2 s2) ∧
    (∀ x y : ℚ, x = y → approximate_lufs x = approximate_lufs y) :=
  ⟨fun _ _ _ _ hk hs => hk ▸ hs ▸ rfl, fun _ _ h => h ▸ rfl⟩

theorem C10_deterministic_witness :
    get_key_camelot "C" "major" = get_key_camelot "C" "major" ∧
    approximate_lufs 0 = approximate_lufs 0 :=
  ⟨C10_deterministic.1 "C" "C" "major" "major" rfl rfl,
   C10_deterministic.2 0 0 rfl⟩

end DJMan
